import Mathlib

/-!
Verification of the bear_hug widget/compositor core (`bear_hug/widgets.py`)
against its natural-language specification.

The Python classes are shallowly embedded as Lean structures and pure
functions.  Numpy tile arrays become `Grid α` values (a height, a width and a
cell function); the tile record {char, color, bkcolor} is abstracted by the
type parameter `α`, since every claim treats cells as opaque values compared
by value.  In-place mutation becomes explicit state passing; Python
exceptions become `Except` results, with the state at raise time carried in
the error so that failure atomicity is a provable property rather than an
artifact of the embedding.  Python floats (tick durations, frame times) are
modelled as exact rationals.
-/

/-- The kinds of Python exceptions the modelled code can raise. -/
inductive PyErr where
  /-- Python `BearLayoutException` -/
  | layoutError
  /-- plain `BearException` -/
  | bearException
  /-- Python `AttributeError` (an attribute that was never assigned is read) -/
  | attributeError
  /-- Python `IndexError` (out-of-range list subscript) -/
  | indexError
  deriving DecidableEq, Repr

/-- A 2-D tile array (numpy array of tiles): a shape plus a cell function.
`cell y x` is the tile at row `y`, column `x`; values outside the shape are
irrelevant junk that no modelled operation reads. -/
structure Grid (α : Type) where
  height : Nat
  width : Nat
  cell : Nat → Nat → α

/-- Numpy slice assignment `big[py:py+small.height, px:px+small.width] = small`,
the elementary step of `Layout._rebuild_self`. -/
def Grid.paste {α : Type} (big small : Grid α) (py px : Nat) : Grid α :=
  { big with cell := fun y x =>
      if py ≤ y ∧ y < py + small.height ∧ px ≤ x ∧ x < px + small.width then
        small.cell (y - py) (x - px)
      else big.cell y x }

/-- A child entry of a `Layout`: the child widget's tile array, its recorded
offset from `child_locations` (row, column), and its `hidden` flag. -/
structure ChildW (α : Type) where
  grid : Grid α
  pos : Nat × Nat
  hidden : Bool

/-- The rectangle of a child covers cell `(y, x)` of the parent Layout. -/
def ChildW.covers {α : Type} (c : ChildW α) (y x : Nat) : Prop :=
  c.pos.1 ≤ y ∧ y < c.pos.1 + c.grid.height ∧
  c.pos.2 ≤ x ∧ x < c.pos.2 + c.grid.width

instance {α : Type} (c : ChildW α) (y x : Nat) : Decidable (c.covers y x) := by
  unfold ChildW.covers; infer_instance

/-- The value a child contributes at parent cell `(y, x)` (only meaningful
when `c.covers y x`). -/
def ChildW.valAt {α : Type} (c : ChildW α) (y x : Nat) : α :=
  c.grid.cell (y - c.pos.1) (x - c.pos.2)

/-- Compositing state of a `Layout`.

`Layout.__init__` stores the constructor's `tile_array` as the Layout's own
buffer **and** wraps the very same array object in the background widget it
appends as `children[0]` (`w = Widget(tile_array); self.add_child(w, (0,0))`).
The model keeps that aliasing explicit: `buf` is simultaneously the Layout's
buffer and the background child's tile array, `bgHidden` is the background
child's `hidden` flag, and `rest` holds `children[1:]`, each with its own
array. -/
structure LayoutM (α : Type) where
  buf : Grid α
  bgHidden : Bool
  rest : List (ChildW α)

/-- The background child `children[0]`: its grid is the Layout's own buffer
(same numpy array object), recorded at offset `(0, 0)`. -/
def LayoutM.bgChild {α : Type} (L : LayoutM α) : ChildW α :=
  ⟨L.buf, (0, 0), L.bgHidden⟩

/-- The ordered child list `self.children` (insertion order, background
first). -/
def LayoutM.childrenL {α : Type} (L : LayoutM α) : List (ChildW α) :=
  L.bgChild :: L.rest

/-- One iteration of the loop body of `Layout._rebuild_self`: skip a hidden
child, otherwise paste its tile array into the accumulated buffer at its
recorded offset. -/
def rebuildStep {α : Type} (b : Grid α) (c : ChildW α) : Grid α :=
  if c.hidden then b else b.paste c.grid c.pos.1 c.pos.2

/-- The body of `Layout._rebuild_self`: iterate `self.children` in insertion order and
paste every non-hidden child's tile array into the Layout's buffer. -/
def LayoutM.rebuild {α : Type} (L : LayoutM α) : Grid α :=
  L.childrenL.foldl rebuildStep L.buf

/-- The Layout after `_rebuild_self` returns: the composite has been written
into the Layout's own array (which `children[0]` aliases); the entries of
`children[1:]` are untouched. -/
def LayoutM.afterRebuild {α : Type} (L : LayoutM α) : LayoutM α :=
  { L with buf := L.rebuild }

section RebuildLemmas

variable {α : Type}

/-- Accumulator step for locating the last non-hidden child covering a cell. -/
def lastCoverF (y x : Nat) (acc : Option (ChildW α)) (c : ChildW α) :
    Option (ChildW α) :=
  if c.hidden = false ∧ c.covers y x then some c else acc

/-- The last (most recently added) non-hidden child of `l` covering `(y, x)`. -/
def lastCover (l : List (ChildW α)) (y x : Nat) : Option (ChildW α) :=
  l.foldl (lastCoverF y x) none

theorem lastCoverF_elim (y x : Nat) (acc : Option (ChildW α)) (c : ChildW α)
    (d : α) (v : ChildW α → α) :
    (lastCoverF y x acc c).elim d v =
      (lastCoverF y x none c).elim (acc.elim d v) v := by
  unfold lastCoverF
  by_cases h : c.hidden = false ∧ c.covers y x
  · simp [h]
  · simp [h]

/-- The accumulator of the `lastCover` fold only matters as a fallback. -/
theorem foldl_lastCoverF_elim (y x : Nat) (l : List (ChildW α)) :
    ∀ (acc : Option (ChildW α)) (d : α) (v : ChildW α → α),
    (l.foldl (lastCoverF y x) acc).elim d v =
      (l.foldl (lastCoverF y x) none).elim (acc.elim d v) v := by
  induction l with
  | nil => intro acc d v; simp
  | cons c l ih =>
    intro acc d v
    simp only [List.foldl_cons]
    rw [ih (lastCoverF y x acc c), ih (lastCoverF y x none c),
      lastCoverF_elim]

theorem rebuildStep_cell (b : Grid α) (c : ChildW α) (y x : Nat) :
    (rebuildStep b c).cell y x =
      (lastCoverF y x none c).elim (b.cell y x) (fun c => c.valAt y x) := by
  unfold rebuildStep lastCoverF
  by_cases hh : c.hidden
  · simp [hh]
  · by_cases hc : c.covers y x
    · have : c.covers y x := hc
      unfold ChildW.covers at this
      simp [hh, hc, Grid.paste, ChildW.valAt, this]
    · have : ¬ (c.pos.1 ≤ y ∧ y < c.pos.1 + c.grid.height ∧
          c.pos.2 ≤ x ∧ x < c.pos.2 + c.grid.width) := hc
      simp [hh, hc, Grid.paste, this]

/-- Painter's algorithm, cell by cell: folding the paste step over a child
list leaves, at each cell, the value of the last non-hidden child covering
it, and the initial buffer's value where no child covers. -/
theorem foldl_rebuildStep_cell (y x : Nat) (l : List (ChildW α)) :
    ∀ b : Grid α,
    (l.foldl rebuildStep b).cell y x =
      (lastCover l y x).elim (b.cell y x) (fun c => c.valAt y x) := by
  induction l with
  | nil => intro b; simp [lastCover]
  | cons c l ih =>
    intro b
    simp only [List.foldl_cons, lastCover] at *
    rw [ih (rebuildStep b c), rebuildStep_cell,
      foldl_lastCoverF_elim y x l (lastCoverF y x none c)]

/-- If nothing in `post` is a non-hidden cover of `(y, x)`, the fold keeps
its accumulator. -/
theorem foldl_lastCoverF_of_none (y x : Nat) (post : List (ChildW α))
    (hpost : ∀ c ∈ post, c.hidden = true ∨ ¬ c.covers y x) :
    ∀ acc : Option (ChildW α), post.foldl (lastCoverF y x) acc = acc := by
  induction post with
  | nil => intro acc; rfl
  | cons c l ih =>
    intro acc
    have hc := hpost c (by simp)
    have hstep : lastCoverF y x acc c = acc := by
      unfold lastCoverF
      rcases hc with h | h
      · simp [h]
      · have : ¬ (c.hidden = false ∧ c.covers y x) := fun hand => h hand.2
        simp [this]
    simp only [List.foldl_cons, hstep]
    exact ih (fun c hc => hpost c (by simp [hc])) acc

end RebuildLemmas

/-! ### Concrete layouts for C1 and C8 -/

/-- A 1×1 grid holding the single tile value `n`. -/
def gC (n : Nat) : Grid Nat := ⟨1, 1, fun _ _ => n⟩

/-- Child painted first (tile value 1). -/
def cexA : ChildW Nat := ⟨gC 1, (0, 0), false⟩

/-- Child painted second (tile value 2). -/
def cexB : ChildW Nat := ⟨gC 2, (0, 0), false⟩

/-- Child painted third (tile value 3). -/
def cexC : ChildW Nat := ⟨gC 3, (0, 0), false⟩

/-- A 1×1 Layout with three mutually overlapping non-hidden children added
after the background. -/
def cexLayout : LayoutM Nat := ⟨gC 0, false, [cexA, cexB, cexC]⟩

/-- A 1×1 Layout with only the children `cexA` then `cexB`. -/
def wLayoutC1 : LayoutM Nat := ⟨gC 0, false, [cexA, cexB]⟩

/-- A child whose tiles differ from the background's. -/
def c8Child : ChildW Nat := ⟨gC 7, (0, 0), false⟩

/-- A 1×1 Layout with the single extra child `c8Child`. -/
def c8Layout : LayoutM Nat := ⟨gC 0, false, [c8Child]⟩

/-- C1 (amended): in `Layout._rebuild_self` children are pasted in insertion
order, oldest first, skipping hidden children; hence for non-hidden children
A added before B, at every cell covered by both rectangles the composited
buffer equals B's cell — provided no non-hidden child added after B also
covers that cell (otherwise that later child's cell wins). -/
theorem layout_paint_order_amended {α : Type} (L : LayoutM α)
    (A B : ChildW α) (pre mid post : List (ChildW α)) (y x : Nat)
    (hdecomp : L.childrenL = pre ++ A :: mid ++ B :: post)
    (hA : A.hidden = false) (hB : B.hidden = false)
    (hAcov : A.covers y x) (hBcov : B.covers y x)
    (hpost : ∀ c ∈ post, c.hidden = true ∨ ¬ c.covers y x) :
    L.rebuild.cell y x = B.valAt y x := by
  unfold LayoutM.rebuild
  rw [hdecomp, foldl_rebuildStep_cell]
  have hlist : pre ++ A :: mid ++ B :: post = (pre ++ A :: mid) ++ B :: post := by
    simp
  rw [hlist]
  unfold lastCover
  rw [List.foldl_append]
  simp only [List.foldl_cons]
  have hfB : lastCoverF y x ((pre ++ A :: mid).foldl (lastCoverF y x) none) B
      = some B := by
    unfold lastCoverF
    simp [hB, hBcov]
  rw [hfB, foldl_lastCoverF_of_none y x post hpost]
  rfl

/-- C1 witness: a 1×1 Layout with children `cexA` then `cexB`; the composite
at the overlap equals B's tile. -/
theorem layout_paint_order_witness :
    wLayoutC1.rebuild.cell 0 0 = cexB.valAt 0 0 :=
  layout_paint_order_amended wLayoutC1 cexA cexB [wLayoutC1.bgChild] [] [] 0 0
    rfl rfl rfl (by decide) (by decide) (by simp)

/-- C1 counterexample: with three stacked non-hidden children A, B, C (added
in that order), A was added before B and both cover cell (0,0), yet the
composited buffer there is C's tile 3, not B's tile 2 — the claim as stated
("equals B's cell" for *any* A before B) is false. -/
theorem layout_paint_order_counterexample :
    cexLayout.childrenL = [cexLayout.bgChild, cexA, cexB, cexC] ∧
    cexA.hidden = false ∧ cexB.hidden = false ∧
    cexA.covers 0 0 ∧ cexB.covers 0 0 ∧
    cexLayout.rebuild.cell 0 0 = 3 ∧ cexB.valAt 0 0 = 2 :=
  ⟨rfl, rfl, rfl, by decide, by decide, by decide, rfl⟩

/-- C8 (amended): `_rebuild_self` leaves the tile array of every child in
`children[1:]` unchanged, but the background child `children[0]` aliases the
Layout's own array, so after a rebuild its buffer equals the new composite
(and is therefore mutated whenever the composite differs from it). -/
theorem rebuild_child_buffers_amended {α : Type} (L : LayoutM α) :
    (L.afterRebuild).rest = L.rest ∧
    (L.afterRebuild).bgChild.grid = L.rebuild := by
  exact ⟨rfl, rfl⟩

/-- C8 counterexample: for a 1×1 Layout whose background tile is 0 with one
non-hidden child whose tile is 7, the background child's buffer reads 0
before `_rebuild_self` and 7 after it — the parent mutated a child's buffer
during recomposite, so the claim as stated is false. -/
theorem rebuild_child_buffers_counterexample :
    c8Layout.bgChild.grid.cell 0 0 = 0 ∧
    (c8Layout.afterRebuild).bgChild.grid.cell 0 0 = 7 :=
  ⟨rfl, by decide⟩

/-! ### `Layout.add_child` (C2, C4) -/

deriving instance DecidableEq for Except

/-- The state of a child widget that `Layout.add_child` inspects and mutates:
its Python object identity `wid`, its tile-array shape, and its
`terminal`/`parent` back-references (identified by id).  Tile contents are
irrelevant to `add_child` and omitted. -/
structure WRec where
  wid : Nat
  height : Nat
  width : Nat
  terminal : Option Nat
  parent : Option Nat
  deriving DecidableEq, Repr

/-- The state of a `Layout` that `add_child` inspects and mutates: its own
identity and shape, the ordered child list `self.children`, the
`self.child_locations` dict (insertion-ordered association list keyed by
child identity), its `terminal`, and `needs_redraw`. -/
structure LayoutRec where
  wid : Nat
  height : Nat
  width : Nat
  children : List WRec
  childLocations : List (Nat × Int × Int)
  terminal : Option Nat
  needsRedraw : Bool
  deriving DecidableEq, Repr

/-- The method `Layout.add_child(child, pos)`.  Python raises become `.error`, carrying
the state at raise time; all four raises precede every mutation, so they
carry `L` unchanged.  The `isinstance(child, Widget)` raise cannot fire in
the embedding, where every child value is a widget.  On success the child is
appended to `self.children` and then given the Layout's `terminal` and
`self` as `parent` (the appended record shows the child's final state), its
position is recorded in `child_locations`, and `needs_redraw` is set. -/
def LayoutRec.add_child (L : LayoutRec) (child : WRec) (pos : Int × Int) :
    Except (PyErr × LayoutRec) LayoutRec :=
  -- layout_y, layout_x = self.tile_array.shape; child_y, child_x = child.tile_array.shape
  if child.wid ∈ L.children.map (fun d => d.wid) then
    .error (.layoutError, L)       -- 'Cannot add the same widget to layout twice'
  else if L.height < child.height ∨ L.width < child.width then
    .error (.layoutError, L)       -- 'Cannot add child that is bigger than a Layout'
  else if (child.height : Int) + pos.1 > (L.height : Int) ∨
      (child.width : Int) + pos.2 > (L.width : Int) then
    .error (.layoutError, L)       -- 'Child won\x27t fit at this position'
  else if child.wid = L.wid then
    .error (.layoutError, L)       -- 'Cannot add Layout as its own child'
  else
    .ok { L with
      children := L.children ++
        [{ child with terminal := L.terminal, parent := some L.wid }],
      childLocations := L.childLocations ++ [(child.wid, pos.1, pos.2)],
      needsRedraw := true }

/-- C2: `add_child` raises `BearLayoutException` exactly when the child is
already present, is larger than the Layout in either dimension, would
exceed the Layout bounds at `pos`, or is the Layout itself (the remaining
not-a-Widget case of the claim is outside the typed embedding); on success
it appends the child — now carrying the Layout's `terminal` and the Layout
as `parent` — to the end of the child list, records `pos` as its offset,
and sets `needs_redraw`. -/
theorem add_child_spec (L : LayoutRec) (child : WRec) (pos : Int × Int) :
    ((∃ L', L.add_child child pos = .error (.layoutError, L')) ↔
      (child.wid ∈ L.children.map (fun d => d.wid) ∨
       (L.height < child.height ∨ L.width < child.width) ∨
       ((child.height : Int) + pos.1 > (L.height : Int) ∨
        (child.width : Int) + pos.2 > (L.width : Int)) ∨
       child.wid = L.wid)) ∧
    (∀ L', L.add_child child pos = .ok L' →
      L'.children = L.children ++
        [{ child with terminal := L.terminal, parent := some L.wid }] ∧
      L'.childLocations = L.childLocations ++ [(child.wid, pos.1, pos.2)] ∧
      L'.needsRedraw = true) := by
  unfold LayoutRec.add_child
  split_ifs with h1 h2 h3 h4
  · exact ⟨⟨fun _ => Or.inl h1, fun _ => ⟨L, rfl⟩⟩,
      fun L' h => by cases h⟩
  · exact ⟨⟨fun _ => Or.inr (Or.inl h2), fun _ => ⟨L, rfl⟩⟩,
      fun L' h => by cases h⟩
  · exact ⟨⟨fun _ => Or.inr (Or.inr (Or.inl h3)), fun _ => ⟨L, rfl⟩⟩,
      fun L' h => by cases h⟩
  · exact ⟨⟨fun _ => Or.inr (Or.inr (Or.inr h4)), fun _ => ⟨L, rfl⟩⟩,
      fun L' h => by cases h⟩
  · constructor
    · constructor
      · rintro ⟨L', hL'⟩; cases hL'
      · rintro (h | h | h | h) <;> first
          | exact absurd h h1 | exact absurd h h2
          | exact absurd h h3 | exact absurd h h4
    · intro L' h
      injection h with h
      subst h
      exact ⟨rfl, rfl, rfl⟩

/-- The Layout produced by `Layout.__init__` on a 2×2 array: identity 0,
background child (identity 1) recorded at (0,0). -/
def c2Layout : LayoutRec :=
  ⟨0, 2, 2, [⟨1, 2, 2, none, none⟩], [(1, 0, 0)], none, false⟩

/-- A fresh 1×1 widget (identity 2) to add. -/
def c2Child : WRec := ⟨2, 1, 1, none, none⟩

/-- The state of `c2Layout` after successfully adding `c2Child` at (1,1). -/
def c2LayoutAfter : LayoutRec :=
  ⟨0, 2, 2, [⟨1, 2, 2, none, none⟩, ⟨2, 1, 1, none, some 0⟩],
    [(1, 0, 0), (2, 1, 1)], none, true⟩

/-- The child `c2Child` as it ends up inside `c2Layout`: terminal propagated, parent
set to the Layout. -/
def c2ChildAdded : WRec :=
  { c2Child with terminal := c2Layout.terminal, parent := some c2Layout.wid }

/-- C2 witness: adding a fresh in-bounds 1×1 child at (1,1) to a 2×2 Layout
succeeds with exactly the claimed effects. -/
theorem add_child_spec_witness :
    c2LayoutAfter.children = c2Layout.children ++ [c2ChildAdded] ∧
    c2LayoutAfter.childLocations =
      c2Layout.childLocations ++ [(c2Child.wid, (1 : Int), (1 : Int))] ∧
    c2LayoutAfter.needsRedraw = true :=
  (add_child_spec c2Layout c2Child (1, 1)).2 c2LayoutAfter (by decide)

/-! ### `SwitchingWidget` (C4) -/

/-- The state of a `SwitchingWidget` that `switch_to_image` touches: the
`images_dict` (an association list of image id to a (chars, colors) pair,
both abstracted to `α`), the current image id, and the widget's `chars` and
`colors` attributes. -/
structure SwRec (α : Type) where
  images : List (String × α × α)
  currentImage : String
  chars : α
  colors : α
  deriving DecidableEq, Repr

/-- The method `SwitchingWidget.switch_to_image(image_id)`.  When `image_id` equals the
current image nothing happens.  Otherwise the first statement of the `try`
block evaluates `self.images[image_id][0]`; an unknown id raises `KeyError`
there — before anything was assigned — and is re-raised as `BearException`
with the state untouched.  With a known id all three assignments run. -/
def SwRec.switch_to_image {α : Type} (s : SwRec α) (imageId : String) :
    Except (PyErr × SwRec α) (SwRec α) :=
  if imageId = s.currentImage then .ok s
  else
    match s.images.lookup imageId with
    | none => .error (.bearException, s)
    | some img =>
      .ok { s with chars := img.1, colors := img.2, currentImage := imageId }

/-! ### `ScrollableWidget`, `ScrollableLayout` and `scroll_to` (C3, C4, C9) -/

/-- The state of a `ScrollableLayout` relevant to construction and
scrolling: the backing `tile_array` shape, `view_pos` (a 2-tuple whose
component 0 is the x/width axis, per the class's docstring and
`_rebuild_self`), `view_size` (component 0 = width), and the
`_child_pointers` attribute, which no code of this repository ever assigns
(`Layout.__init__` only creates `child_locations`), here its row and column
counts when present. -/
structure SLRec where
  height : Nat
  width : Nat
  viewPos : Int × Int
  viewSize : Int × Int
  childPointers : Option (Nat × Nat)
  deriving DecidableEq, Repr

/-- The constructor `ScrollableLayout.__init__(tile_array, view_pos, view_size)` for a
backing array of shape `(H, W)`.  `Layout.__init__` runs first (always
succeeds, creating the background child).  The viewpoint check compares
`view_pos[0]` against `self.width - view_size[0]` and `view_pos[1]` against
`self.height - view_size[1]`; the size check then compares `view_size[0]`
against `tile_array.shape[0]` (= H, the height!) and `view_size[1]` against
`shape[1]` (= W).  `_child_pointers` is left unassigned. -/
def mkScrollableLayout (H W : Nat) (viewPos viewSize : Int × Int) :
    Except PyErr SLRec :=
  if ¬ (0 ≤ viewPos.1 ∧ viewPos.1 ≤ (W : Int) - viewSize.1) ∨
      ¬ (0 ≤ viewPos.2 ∧ viewPos.2 ≤ (H : Int) - viewSize.2) then
    .error .layoutError     -- 'Initial viewpoint outside ScrollableLayout'
  else if ¬ (0 < viewSize.1 ∧ viewSize.1 ≤ (H : Int)) ∨
      ¬ (0 < viewSize.2 ∧ viewSize.2 ≤ (W : Int)) then
    .error .layoutError     -- 'Invalid view field size'
  else
    .ok ⟨H, W, viewPos, viewSize, none⟩

/-- The method `ScrollableLayout.scroll_to(pos)`.  The tuple-of-two-ints type check
holds for every `Int × Int` value.  The bounds check then reads
`self._child_pointers`, an attribute that was never assigned, so Python
raises `AttributeError` before anything is compared; the comparison code
against `len(_child_pointers[0]) - view_size[0]` and
`len(_child_pointers) - view_size[1]` is modelled for the hypothetical case
in which the attribute exists.  `view_pos` is only assigned after a passed
check. -/
def SLRec.scroll_to (s : SLRec) (pos : Int × Int) :
    Except (PyErr × SLRec) SLRec :=
  match s.childPointers with
  | none => .error (.attributeError, s)
  | some dims =>
    if ¬ (0 ≤ pos.1 ∧ pos.1 ≤ (dims.2 : Int) - s.viewSize.1) ∨
        ¬ (0 ≤ pos.2 ∧ pos.2 ≤ (dims.1 : Int) - s.viewSize.2) then
      .error (.layoutError, s)   -- 'Scrolling to invalid position'
    else .ok { s with viewPos := pos }

/-- The state of a `ScrollableWidget` relevant to construction: backing
shape and the view window.  In this class component 0 of `view_pos` and
`view_size` indexes axis 0 (rows), as in `regenerate_view`. -/
structure SWRec where
  height : Nat
  width : Nat
  viewPos : Int × Int
  viewSize : Int × Int
  deriving DecidableEq, Repr

/-- The constructor `ScrollableWidget.__init__(tile_array, view_pos, view_size)`: viewpoint
check against `shape[i] - view_size[i]` and size check against `shape[i]`,
component `i` against axis `i` in both. -/
def mkScrollableWidget (H W : Nat) (viewPos viewSize : Int × Int) :
    Except PyErr SWRec :=
  if ¬ (0 ≤ viewPos.1 ∧ viewPos.1 ≤ (H : Int) - viewSize.1) ∨
      ¬ (0 ≤ viewPos.2 ∧ viewPos.2 ≤ (W : Int) - viewSize.2) then
    .error .layoutError     -- 'Initial viewpoint outside ScrollableLayout'
  else if ¬ (0 < viewSize.1 ∧ viewSize.1 ≤ (H : Int)) ∨
      ¬ (0 < viewSize.2 ∧ viewSize.2 ≤ (W : Int)) then
    .error .layoutError     -- 'Invalid view field size'
  else
    .ok ⟨H, W, viewPos, viewSize⟩

/-- A check that `ScrollableWidget` construction does satisfy the componentwise
invariant of the spec: it succeeds exactly when
`0 ≤ view_pos ≤ backing − view_size` and `0 < view_size ≤ backing`
hold with each component checked against its own axis. -/
theorem mkScrollableWidget_ok_iff (H W : Nat) (viewPos viewSize : Int × Int) :
    (∃ s, mkScrollableWidget H W viewPos viewSize = .ok s) ↔
      ((0 ≤ viewPos.1 ∧ viewPos.1 ≤ (H : Int) - viewSize.1) ∧
       (0 ≤ viewPos.2 ∧ viewPos.2 ≤ (W : Int) - viewSize.2) ∧
       (0 < viewSize.1 ∧ viewSize.1 ≤ (H : Int)) ∧
       (0 < viewSize.2 ∧ viewSize.2 ≤ (W : Int))) := by
  unfold mkScrollableWidget
  split_ifs with h1 h2
  · constructor
    · rintro ⟨s, hs⟩; cases hs
    · rintro ⟨a, b, c, d⟩
      rcases h1 with h | h <;> [exact absurd a h; exact absurd b h]
  · constructor
    · rintro ⟨s, hs⟩; cases hs
    · rintro ⟨a, b, c, d⟩
      rcases h2 with h | h <;> [exact absurd c h; exact absurd d h]
  · push_neg at h1 h2
    constructor
    · intro _
      exact ⟨⟨h1.1.1, h1.1.2⟩, ⟨h1.2.1, h1.2.2⟩, ⟨h2.1.1, h2.1.2⟩,
        ⟨h2.2.1, h2.2.2⟩⟩
    · intro _; exact ⟨_, rfl⟩

/-- The `ScrollableLayout` built from a 20×20 backing array with view size
(5,5) at view position (0,0): `_child_pointers` is absent. -/
def slEx : SLRec := ⟨20, 20, (0, 0), (5, 5), none⟩

/-- C3: on a freshly constructed `ScrollableLayout` (20×20 backing, 5×5
view), *every* `scroll_to` call — including all the in-range positions
(0,0)–(15,15) the claim requires to succeed — raises `AttributeError`,
because `self._child_pointers` is read in the bounds check but never
assigned anywhere in the code; `view_pos` is never replaced. -/
theorem scroll_to_always_attribute_error :
    mkScrollableLayout 20 20 (0, 0) (5, 5) = .ok slEx ∧
    ∀ pos : Int × Int, slEx.scroll_to pos = .error (.attributeError, slEx) :=
  ⟨by decide, fun _ => rfl⟩

/-- C9: for a 5×10 backing array (H=5, W=10), view position (0,0) and view
size (8,3) — width 8 ≤ W=10, height 3 ≤ H=5, view inside the backing, so
the claim requires construction to succeed — `ScrollableLayout.__init__`
raises `BearLayoutException`, because its size check compares the width
component 8 against the backing *height* 5 (`shape[0]`).  `ScrollableWidget`
with the same geometry in its own (row, column) component order succeeds. -/
theorem scrollable_init_axis_swap :
    ((0 : Int) ≤ 0 ∧ (0 : Int) ≤ (10 : Int) - 8 ∧ (0 : Int) ≤ (5 : Int) - 3 ∧
     (0 : Int) < 8 ∧ (8 : Int) ≤ 10 ∧ (0 : Int) < 3 ∧ (3 : Int) ≤ 5) ∧
    mkScrollableLayout 5 10 (0, 0) (8, 3) = .error .layoutError ∧
    mkScrollableWidget 5 10 (0, 0) (3, 8) = .ok ⟨5, 10, (0, 0), (3, 8)⟩ := by
  decide

/-! ### Failure atomicity (C4) -/

/-- C4: none of `add_child`, `scroll_to`, `switch_to_image` has a
partial-failure mode: whenever one of them raises, the state carried out at
the raise point is exactly the state the call received — every raise
happens before the first mutation. -/
theorem operations_atomic :
    (∀ (L : LayoutRec) (child : WRec) (pos : Int × Int) (e : PyErr)
        (L' : LayoutRec), L.add_child child pos = .error (e, L') → L' = L) ∧
    (∀ (s : SLRec) (pos : Int × Int) (e : PyErr) (s' : SLRec),
        s.scroll_to pos = .error (e, s') → s' = s) ∧
    (∀ {α : Type} (s : SwRec α) (imageId : String) (e : PyErr)
        (s' : SwRec α),
        s.switch_to_image imageId = .error (e, s') → s' = s) := by
  refine ⟨?_, ?_, ?_⟩
  · intro L child pos e L' h
    unfold LayoutRec.add_child at h
    split_ifs at h <;> simp_all
  · intro s pos e s' h
    rcases hcp : s.childPointers with _ | dims <;>
      simp only [SLRec.scroll_to, hcp] at h
    · simp_all
    · split_ifs at h <;> simp_all
  · intro α s imageId e s' h
    rcases hl : s.images.lookup imageId with _ | img <;>
      simp only [SwRec.switch_to_image, hl] at h <;> split_ifs at h <;>
      simp_all

/-- A 3×3 Layout (identity 5) with no extra children. -/
def c4Layout : LayoutRec := ⟨5, 3, 3, [], [], none, false⟩

/-- A 4×4 widget — too big for `c4Layout`, so `add_child` raises. -/
def c4BigChild : WRec := ⟨6, 4, 4, none, none⟩

/-- A constructed `ScrollableLayout` state (no `_child_pointers`). -/
def c4SL : SLRec := ⟨20, 20, (0, 0), (5, 5), none⟩

/-- A `SwitchingWidget` with one image "a"; switching to "b" raises. -/
def c4Sw : SwRec Nat := ⟨[("a", 1, 2)], "a", 1, 2⟩

/-- C4 witness: each of the three operations applied at a concrete raising
input leaves the carried-out state equal to the input state. -/
theorem operations_atomic_witness :
    c4Layout = c4Layout ∧ c4SL = c4SL ∧ c4Sw = c4Sw :=
  ⟨operations_atomic.1 c4Layout c4BigChild (0, 0) .layoutError c4Layout
      (by decide),
   operations_atomic.2.1 c4SL (0, 0) .attributeError c4SL (by decide),
   operations_atomic.2.2 c4Sw "b" .bearException c4Sw (by decide)⟩

/-! ### `Layout.on_event` (C6) -/

/-- A `BearEvent`: its `event_type` and `event_value` strings. -/
structure BEvent where
  event_type : String
  event_value : String
  deriving DecidableEq, Repr

/-- The state `Layout.on_event` consults: the compositing state, the
`needs_redraw` flag, and whether `self.parent` is a `BearTerminal`
(`isinstance(self.parent, BearTerminal)`). -/
structure LayoutEvSt (α : Type) where
  lay : LayoutM α
  needsRedraw : Bool
  parentIsTerminal : Bool

/-- The state after a recomposite pass: `_rebuild_self` has run and
`needs_redraw` is cleared. -/
def LayoutEvSt.recomposited {α : Type} (s : LayoutEvSt α) : LayoutEvSt α :=
  { s with lay := s.lay.afterRebuild, needsRedraw := false }

/-- The method `Layout.on_event(event)`: on a `service`/`tick_over` event with
`needs_redraw` set, run `_rebuild_self`, call
`self.terminal.update_widget(self)` when the parent is the terminal (the
returned boolean records whether that push happened), and clear
`needs_redraw`; otherwise do nothing. -/
def LayoutEvSt.on_event {α : Type} (s : LayoutEvSt α) (e : BEvent) :
    LayoutEvSt α × Bool :=
  if e.event_type = "service" ∧ e.event_value = "tick_over" ∧
      s.needsRedraw = true then
    (s.recomposited, s.parentIsTerminal)
  else (s, false)

/-- C6: a Layout recomposites exactly on a `service`/`tick_over` event with
`needs_redraw` set — rebuilding its buffer, pushing it to the terminal iff
its parent is the terminal, and clearing the flag — and on any other event,
or with the flag clear, its state is untouched and nothing is pushed. -/
theorem layout_on_event_spec {α : Type} (s : LayoutEvSt α) (e : BEvent) :
    (e.event_type = "service" ∧ e.event_value = "tick_over" ∧
        s.needsRedraw = true →
      s.on_event e = (s.recomposited, s.parentIsTerminal)) ∧
    (¬ (e.event_type = "service" ∧ e.event_value = "tick_over" ∧
        s.needsRedraw = true) →
      s.on_event e = (s, false)) := by
  unfold LayoutEvSt.on_event
  constructor <;> intro h <;> simp [h]

/-- A dirty 1×1 Layout, parented to the terminal, with one child of tile 7
over a background of tile 0. -/
def c6State : LayoutEvSt Nat :=
  ⟨⟨gC 0, false, [⟨gC 7, (0, 0), false⟩]⟩, true, true⟩

/-- C6 witness: delivering `service`/`tick_over` to the dirty `c6State`
recomposites, pushes (parent is the terminal) and clears the flag. -/
theorem layout_on_event_spec_witness :
    c6State.on_event ⟨"service", "tick_over"⟩ =
      (c6State.recomposited, c6State.parentIsTerminal) :=
  (layout_on_event_spec c6State ⟨"service", "tick_over"⟩).1 ⟨rfl, rfl, rfl⟩

/-! ### `MenuWidget` navigation (C7) -/

/-- An event as `MenuWidget.on_event` sees it: a `tick` with its elapsed
time, or a `key_down` with its key string.  (Pointer `misc_input` events
need a live terminal to be interpreted and are outside the claim, which is
about key events.) -/
inductive MEvent where
  | tick (dt : ℚ)
  | keyDown (key : String)
  deriving DecidableEq, Repr

/-- The navigation state of a `MenuWidget`: the child count (background,
`MenuItem`s, optional header), the highlight index, the input-debounce
timer, and the redraw flag set by the `current_highlight` setter. -/
structure MenuSt where
  numChildren : Nat
  currentHighlight : Nat
  inputDelay : ℚ
  currentDelay : ℚ
  needsRedraw : Bool
  deriving DecidableEq, Repr

/-- The `current_highlight` setter: un-highlights the old item, highlights
the new one (colour changes on the children, outside this state), stores
the index and marks the Layout for redraw.  Its `1 ≤ value ≤ N-1` guard
cannot fire on the navigation paths, which are guarded more tightly. -/
def MenuSt.setHighlight (s : MenuSt) (v : Nat) : MenuSt :=
  { s with currentHighlight := v, needsRedraw := true }

/-- The navigation part of `MenuWidget.on_event`: a `tick` accumulates the
debounce timer while it is still below/at `input_delay`; an accepted
`key_down` (debounce timer at or past `input_delay`) first resets the timer
to 0, then Space/Enter activates the highlighted item (index unchanged),
Up/W moves the highlight down by one if it is above 1, Down/S moves it up
by one if it is below `len(children) - 2`. -/
def MenuSt.on_event (s : MenuSt) (e : MEvent) : MenuSt :=
  match e with
  | .tick dt =>
    if s.currentDelay ≤ s.inputDelay then
      { s with currentDelay := s.currentDelay + dt }
    else s
  | .keyDown key =>
    if s.currentDelay ≥ s.inputDelay then
      let s := { s with currentDelay := 0 }
      if key = "TK_SPACE" ∨ key = "TK_ENTER" then s
      else if (key = "TK_UP" ∨ key = "TK_W") ∧ s.currentHighlight > 1 then
        s.setHighlight (s.currentHighlight - 1)
      else if (key = "TK_DOWN" ∨ key = "TK_S") ∧
          s.currentHighlight < s.numChildren - 2 then
        s.setHighlight (s.currentHighlight + 1)
      else s
    else s

/-- Feed a sequence of events to the menu. -/
def MenuSt.run (s : MenuSt) (es : List MEvent) : MenuSt :=
  es.foldl MenuSt.on_event s

theorem menu_on_event_numChildren (s : MenuSt) (e : MEvent) :
    (s.on_event e).numChildren = s.numChildren := by
  rcases e with dt | key <;>
    simp only [MenuSt.on_event, MenuSt.setHighlight] <;>
    split_ifs <;> rfl

theorem menu_on_event_bounds (s : MenuSt) (e : MEvent)
    (h1 : 1 ≤ s.currentHighlight)
    (h2 : s.currentHighlight ≤ s.numChildren - 2) :
    1 ≤ (s.on_event e).currentHighlight ∧
    (s.on_event e).currentHighlight ≤ s.numChildren - 2 := by
  rcases e with dt | key
  · simp only [MenuSt.on_event]
    split_ifs <;> exact ⟨h1, h2⟩
  · simp only [MenuSt.on_event, MenuSt.setHighlight]
    split_ifs with hd hsp hup hdown
    · exact ⟨h1, h2⟩
    · obtain ⟨-, h⟩ := hup
      dsimp only
      constructor <;> omega
    · obtain ⟨-, h⟩ := hdown
      dsimp only
      constructor <;> omega
    · exact ⟨h1, h2⟩
    · exact ⟨h1, h2⟩

theorem menu_run_numChildren (es : List MEvent) :
    ∀ s : MenuSt, (s.run es).numChildren = s.numChildren := by
  induction es with
  | nil => intro s; rfl
  | cons e es ih =>
    intro s
    show ((s.on_event e).run es).numChildren = s.numChildren
    rw [ih, menu_on_event_numChildren]

theorem menu_run_bounds (es : List MEvent) :
    ∀ s : MenuSt, 1 ≤ s.currentHighlight →
    s.currentHighlight ≤ s.numChildren - 2 →
    1 ≤ (s.run es).currentHighlight ∧
    (s.run es).currentHighlight ≤ (s.run es).numChildren - 2 := by
  induction es with
  | nil => intro s h1 h2; exact ⟨h1, h2⟩
  | cons e es ih =>
    intro s h1 h2
    have hb := menu_on_event_bounds s e h1 h2
    have hn := menu_on_event_numChildren s e
    show 1 ≤ ((s.on_event e).run es).currentHighlight ∧ _
    exact ih (s.on_event e) hb.1 (by rw [hn]; exact hb.2)

theorem menu_keydown_down (s : MenuSt) (key : String)
    (hdelay : s.currentDelay ≥ s.inputDelay)
    (hsp : ¬ (key = "TK_SPACE" ∨ key = "TK_ENTER"))
    (hupStr : ¬ (key = "TK_UP" ∨ key = "TK_W"))
    (hdnStr : key = "TK_DOWN" ∨ key = "TK_S")
    (h2 : s.currentHighlight ≤ s.numChildren - 2) :
    (s.on_event (.keyDown key)).currentHighlight =
      if s.currentHighlight = s.numChildren - 2 then s.currentHighlight
      else s.currentHighlight + 1 := by
  by_cases hlt : s.currentHighlight < s.numChildren - 2
  · rw [if_neg (by omega : ¬ s.currentHighlight = s.numChildren - 2)]
    simp [MenuSt.on_event, MenuSt.setHighlight, hdelay, hsp, hupStr,
      hdnStr, hlt]
  · rw [if_pos (by omega : s.currentHighlight = s.numChildren - 2)]
    simp [MenuSt.on_event, MenuSt.setHighlight, hdelay, hsp, hupStr, hlt]

theorem menu_keydown_up (s : MenuSt) (key : String)
    (hdelay : s.currentDelay ≥ s.inputDelay)
    (hsp : ¬ (key = "TK_SPACE" ∨ key = "TK_ENTER"))
    (hupStr : key = "TK_UP" ∨ key = "TK_W")
    (hdnStr : ¬ (key = "TK_DOWN" ∨ key = "TK_S"))
    (h1 : 1 ≤ s.currentHighlight) :
    (s.on_event (.keyDown key)).currentHighlight =
      if s.currentHighlight = 1 then s.currentHighlight
      else s.currentHighlight - 1 := by
  by_cases hgt : s.currentHighlight > 1
  · rw [if_neg (by omega : ¬ s.currentHighlight = 1)]
    simp [MenuSt.on_event, MenuSt.setHighlight, hdelay, hsp, hupStr, hgt]
  · rw [if_pos (by omega : s.currentHighlight = 1)]
    simp [MenuSt.on_event, MenuSt.setHighlight, hdelay, hsp, hdnStr, hgt]

/-- C7: for a menu whose highlight is in the navigable range
`[1, N-2]`, an accepted Down (or S) key moves the highlight up by one
unless it is already at `N-2`, an accepted Up (or W) key moves it down by
one unless it is already at 1, and no sequence of events (keys and ticks)
ever takes the highlight outside `[1, N-2]`. -/
theorem menu_highlight_spec (s : MenuSt)
    (h1 : 1 ≤ s.currentHighlight)
    (h2 : s.currentHighlight ≤ s.numChildren - 2) :
    (∀ key, (key = "TK_DOWN" ∨ key = "TK_S") →
      s.currentDelay ≥ s.inputDelay →
      (s.on_event (.keyDown key)).currentHighlight =
        if s.currentHighlight = s.numChildren - 2 then s.currentHighlight
        else s.currentHighlight + 1) ∧
    (∀ key, (key = "TK_UP" ∨ key = "TK_W") →
      s.currentDelay ≥ s.inputDelay →
      (s.on_event (.keyDown key)).currentHighlight =
        if s.currentHighlight = 1 then s.currentHighlight
        else s.currentHighlight - 1) ∧
    (∀ es : List MEvent,
      1 ≤ (s.run es).currentHighlight ∧
      (s.run es).currentHighlight ≤ s.numChildren - 2) := by
  refine ⟨?_, ?_, ?_⟩
  · intro key hk hdelay
    exact menu_keydown_down s key hdelay
      (by rcases hk with rfl | rfl <;> decide)
      (by rcases hk with rfl | rfl <;> decide) hk h2
  · intro key hk hdelay
    exact menu_keydown_up s key hdelay
      (by rcases hk with rfl | rfl <;> decide) hk
      (by rcases hk with rfl | rfl <;> decide) h1
  · intro es
    have := menu_run_bounds es s h1 h2
    rw [menu_run_numChildren] at this
    exact this

/-- A menu with five children (background, three `MenuItem`s, header),
highlight at 2, debounce timer expired. -/
def c7Menu : MenuSt := ⟨5, 2, 1/5, 1/5, false⟩

/-- C7 witness: an accepted Down key on `c7Menu` (highlight 2 of range
[1,3]) moves the highlight to 3. -/
theorem menu_highlight_spec_witness :
    (c7Menu.on_event (.keyDown "TK_DOWN")).currentHighlight =
      if c7Menu.currentHighlight = c7Menu.numChildren - 2 then
        c7Menu.currentHighlight
      else c7Menu.currentHighlight + 1 :=
  (menu_highlight_spec c7Menu (by decide) (by decide)).1 "TK_DOWN"
    (Or.inl rfl) (le_refl _)

/-! ### Animation playback (C5, C10) -/

/-- The state of a `SimpleAnimationWidget`: the frames of its `Animation`
(each (chars, colors) pair abstracted to one value of `α`), the animation's
`frame_time` (= 1/fps), the playback position, the accumulated waiting
time, the running and `emit_ecs` flags, and the widget's visible buffer. -/
structure SimpleAnim (α : Type) where
  frames : List α
  frameTime : ℚ
  runningIndex : Nat
  haveWaited : ℚ
  isRunning : Bool
  emitEcs : Bool
  buffer : α
  deriving DecidableEq, Repr

/-- The index after `self.running_index += 1` followed by the wrap
`if self.running_index >= len(self.animation): self.running_index = 0`. -/
def SimpleAnim.nextIndex {α : Type} (w : SimpleAnim α) : Nat :=
  if w.runningIndex + 1 ≥ w.frames.length then 0 else w.runningIndex + 1

/-- The `tick` branch of `SimpleAnimationWidget.on_event`: accumulate
`event_value` into `have_waited`; once it reaches `frame_time`, advance the
index (wrapping), load that frame into the buffer, reset `have_waited` to
0 and, when `emit_ecs`, return an `ecs_update` event (the Bool).  The frame
subscript is modelled partially (`get?`) exactly like a Python list index. -/
def SimpleAnim.on_tick {α : Type} (w : SimpleAnim α) (dt : ℚ) :
    Except PyErr (SimpleAnim α × Bool) :=
  if w.isRunning then
    if w.haveWaited + dt ≥ w.frameTime then
      match w.frames.get? w.nextIndex with
      | none => .error .indexError
      | some f =>
        .ok ({ w with runningIndex := w.nextIndex, buffer := f, haveWaited := 0 }, w.emitEcs)
    else .ok ({ w with haveWaited := w.haveWaited + dt }, false)
  else .ok (w, false)

/-- Feed a sequence of tick events, stopping at the first raise. -/
def SimpleAnim.runTicks {α : Type} (w : SimpleAnim α) :
    List ℚ → Except PyErr (SimpleAnim α)
  | [] => .ok w
  | dt :: ds =>
    match w.on_tick dt with
    | .error e => .error e
    | .ok (w', _) => w'.runTicks ds

/-- The state of a `MultipleAnimationWidget`: the frames and `frame_time`
of `self.animation` (= `self.animations[self.current_animation]`; only the
current animation is consulted by `on_event`), playback position,
accumulated time, the `cycle`, `am_running`, `emit_ecs` flags, and the
visible buffer. -/
structure MultiAnim (α : Type) where
  frames : List α
  frameTime : ℚ
  runningIndex : Nat
  haveWaited : ℚ
  cycle : Bool
  amRunning : Bool
  emitEcs : Bool
  buffer : α
  deriving DecidableEq, Repr

/-- The index after `self.running_index += 1` followed by
`if self.running_index >= len(self.animation)`: cycling wraps to 0,
non-cycling keeps the incremented (now out-of-range) index. -/
def MultiAnim.nextIndex {α : Type} (w : MultiAnim α) : Nat :=
  if w.runningIndex + 1 ≥ w.frames.length then
    if w.cycle then 0 else w.runningIndex + 1
  else w.runningIndex + 1

/-- The `am_running` flag after the same branch: cleared when a non-cycling
animation runs past its last frame. -/
def MultiAnim.nextRunning {α : Type} (w : MultiAnim α) : Bool :=
  if w.runningIndex + 1 ≥ w.frames.length then
    if w.cycle then w.amRunning else false
  else w.amRunning

/-- The `tick` branch of `MultipleAnimationWidget.on_event` (reached only
while `am_running`): like the simple widget, but the wrap branch either
resets the index to 0 (`cycle`) or clears `am_running` leaving the index at
`len(frames)` — after which `self.animation.frames[self.running_index]` is
subscripted unconditionally, so the non-cycling end raises `IndexError`
(`get?` = `none`). -/
def MultiAnim.on_tick {α : Type} (w : MultiAnim α) (dt : ℚ) :
    Except PyErr (MultiAnim α × Bool) :=
  if w.amRunning then
    if w.haveWaited + dt ≥ w.frameTime then
      match w.frames.get? w.nextIndex with
      | none => .error .indexError
      | some f =>
        .ok ({ w with runningIndex := w.nextIndex, amRunning := w.nextRunning, buffer := f, haveWaited := 0 }, w.emitEcs)
    else .ok ({ w with haveWaited := w.haveWaited + dt }, false)
  else .ok (w, false)

/-- Feed a sequence of tick events, stopping at the first raise. -/
def MultiAnim.runTicks {α : Type} (w : MultiAnim α) :
    List ℚ → Except PyErr (MultiAnim α)
  | [] => .ok w
  | dt :: ds =>
    match w.on_tick dt with
    | .error e => .error e
    | .ok (w', _) => w'.runTicks ds

/-- A running non-cycling `MultipleAnimationWidget` on a 3-frame fps=10
animation, at frame 0. -/
def c5Multi : MultiAnim Nat := ⟨[10, 20, 30], 1/10, 0, 0, false, true, true, 10⟩

/-- The state of `c5Multi` after two full-frame ticks: at frame 2 (the last), still
running. -/
def c5MultiAt2 : MultiAnim Nat := ⟨[10, 20, 30], 1/10, 2, 0, false, true, true, 30⟩

/-- A running (always-cycling) `SimpleAnimationWidget` on the same 3-frame
fps=10 animation. -/
def c5Simple : SimpleAnim Nat := ⟨[10, 20, 30], 1/10, 0, 0, true, true, 10⟩

/-- The state of `c5Simple` after ticks 0.1, 0.1, 0.1, 0.05: three advances, wrapped back
to frame 0, 0.05 accumulated. -/
def c5SimpleWrapped : SimpleAnim Nat :=
  ⟨[10, 20, 30], 1/10, 0, 1/20, true, true, 10⟩

/-- C5: the cycling behaviour works — the simple (always-cycling) widget on
3 frames at fps=10 fed ticks 0.1+0.1+0.1+0.05 = 0.35 advances exactly three
times and wraps to frame 0 — but the non-cycling halt crashes: after two
advances the non-cycling widget sits at the last frame (index 2), and the
tick that should halt it there increments the index to 3, clears
`am_running`, and then subscripts `frames[3]`, raising `IndexError` instead
of halting with the frame-2 buffer. -/
theorem animation_noncycle_index_error :
    ((1 : ℚ)/10 + 1/10 + 1/10 + 1/20 = 7/20) ∧
    c5Simple.runTicks [1/10, 1/10, 1/10, 1/20] = .ok c5SimpleWrapped ∧
    c5Multi.runTicks [1/10, 1/10] = .ok c5MultiAt2 ∧
    c5MultiAt2.on_tick (1/10) = .error .indexError := by
  refine ⟨by norm_num, ?_, ?_, ?_⟩ <;>
    norm_num [SimpleAnim.runTicks, SimpleAnim.on_tick, SimpleAnim.nextIndex,
      MultiAnim.runTicks, MultiAnim.on_tick, MultiAnim.nextIndex,
      MultiAnim.nextRunning, c5Simple, c5SimpleWrapped, c5Multi, c5MultiAt2]

/-- A running cycling 4-frame fps=10 widget at frame 0. -/
def c10Anim : SimpleAnim Nat := ⟨[0, 1, 2, 3], 1/10, 0, 0, true, true, 0⟩

/-- The state of `c10Anim` after the single tick 0.35: one advance only. -/
def c10AfterOne : SimpleAnim Nat := ⟨[0, 1, 2, 3], 1/10, 1, 0, true, true, 1⟩

/-- The state of `c10Anim` after ticks 0.1, 0.1, 0.1, 0.05 (total 0.35): three
advances. -/
def c10AfterSplit : SimpleAnim Nat :=
  ⟨[0, 1, 2, 3], 1/10, 3, 1/20, true, true, 3⟩

/-- C10: a single tick advances the frame index at most once, however large
its elapsed time, and an advance resets the accumulated waiting time to 0,
discarding the surplus beyond `frame_time` (for both animation widgets);
consequently the count of advances depends on how the elapsed time is split
into ticks: one tick of 0.35 advances `c10Anim` once, while ticks
0.1+0.1+0.1+0.05 of the same total advance it three times. -/
theorem tick_advances_at_most_once :
    (∀ {α : Type} (w : SimpleAnim α) (dt : ℚ) (w' : SimpleAnim α)
        (e : Bool), w.on_tick dt = .ok (w', e) →
      (w'.runningIndex = w.runningIndex ∧ w'.buffer = w.buffer) ∨
      (w'.runningIndex = w.nextIndex ∧ w'.haveWaited = 0)) ∧
    (∀ {α : Type} (w : MultiAnim α) (dt : ℚ) (w' : MultiAnim α)
        (e : Bool), w.on_tick dt = .ok (w', e) →
      (w'.runningIndex = w.runningIndex ∧ w'.buffer = w.buffer) ∨
      (w'.runningIndex = w.nextIndex ∧ w'.haveWaited = 0)) ∧
    c10Anim.runTicks [7/20] = .ok c10AfterOne ∧
    c10Anim.runTicks [1/10, 1/10, 1/10, 1/20] = .ok c10AfterSplit := by
  refine ⟨?_, ?_, ?_, ?_⟩
  · intro α w dt w' e h
    unfold SimpleAnim.on_tick at h
    split_ifs at h with hrun hadv
    · rcases hg : w.frames.get? w.nextIndex with _ | f <;>
        simp only [hg] at h
      · exact (Except.noConfusion h)
      · simp only [Except.ok.injEq, Prod.mk.injEq] at h
        obtain ⟨hw, -⟩ := h
        right
        rw [← hw]
        exact ⟨rfl, rfl⟩
    · left
      simp only [Except.ok.injEq, Prod.mk.injEq] at h
      obtain ⟨hw, -⟩ := h
      rw [← hw]
      exact ⟨rfl, rfl⟩
    · left
      simp only [Except.ok.injEq, Prod.mk.injEq] at h
      obtain ⟨hw, -⟩ := h
      rw [← hw]
      exact ⟨rfl, rfl⟩
  · intro α w dt w' e h
    unfold MultiAnim.on_tick at h
    split_ifs at h with hrun hadv
    · rcases hg : w.frames.get? w.nextIndex with _ | f <;>
        simp only [hg] at h
      · exact (Except.noConfusion h)
      · simp only [Except.ok.injEq, Prod.mk.injEq] at h
        obtain ⟨hw, -⟩ := h
        right
        rw [← hw]
        exact ⟨rfl, rfl⟩
    · left
      simp only [Except.ok.injEq, Prod.mk.injEq] at h
      obtain ⟨hw, -⟩ := h
      rw [← hw]
      exact ⟨rfl, rfl⟩
    · left
      simp only [Except.ok.injEq, Prod.mk.injEq] at h
      obtain ⟨hw, -⟩ := h
      rw [← hw]
      exact ⟨rfl, rfl⟩
  · norm_num [SimpleAnim.runTicks, SimpleAnim.on_tick, SimpleAnim.nextIndex,
      c10Anim, c10AfterOne]
  · norm_num [SimpleAnim.runTicks, SimpleAnim.on_tick, SimpleAnim.nextIndex,
      c10Anim, c10AfterSplit]

/-- C10 witness: the single 0.35 tick on `c10Anim` lands in the
one-advance-and-reset disjunct. -/
theorem tick_advances_at_most_once_witness :
    (c10AfterOne.runningIndex = c10Anim.runningIndex ∧
      c10AfterOne.buffer = c10Anim.buffer) ∨
    (c10AfterOne.runningIndex = c10Anim.nextIndex ∧
      c10AfterOne.haveWaited = 0) :=
  tick_advances_at_most_once.1 c10Anim (7/20) c10AfterOne true
    (by norm_num [SimpleAnim.on_tick, SimpleAnim.nextIndex, c10Anim,
      c10AfterOne])
